import Mathlib

/-!
# Shallow embedding of the HackNest-SIH IoT device / sensor-reading subsystem

This file embeds, in Lean 4, the data model and operations of the
repository's IoT module:

* `iot.py`      — the `IoTDevice` and `SensorReading` records;
* `iot_crud.py` — the CRUD layer (device lookup, creation, partial update,
  status refresh, deletion with cascade, reading ingestion, windowed reading
  queries, aggregation statistics, the liveness sweep);
* `iot_api.py`  — the access-scoped HTTP handlers (registration with
  duplicate check, per-device read/update/delete with ownership checks, the
  device-listing response with online/offline counts).

Modelling conventions:

* The relational store is a `DB` structure holding explicit lists of farms,
  devices and readings; each CRUD function is a pure function on `DB`.
* Timestamps are integers, in minutes.  `timedelta(minutes=m)` is `m` and
  `timedelta(hours=h)` is `60 * h`; "now" is passed explicitly where the
  Python code calls `datetime.utcnow()` / `datetime.now(UTC)`.
* Sensor values are `Option ℚ` (`NULL` is `none`); SQL aggregates `AVG`,
  `MIN`, `MAX` ignore `NULL`s and return `NULL` on an empty set.
* A SQL comparison with a `NULL` operand is not satisfied, so rows with a
  `NULL` column never match a `<` / `=` predicate on it.
* Python truthiness on an optional float (`x if x else None`) is `none`
  both for `None` and for the value `0`; it is modelled by `pyFloatOrNone`.
* Raising `HTTPException` before any write is modelled by the handler
  returning the unchanged `DB` together with an error value.
-/

namespace HackNest

/-- An ownership record for a farm (external collaborator of the IoT module).
Modelled from the spec: farm records live outside `src/`; the spec describes
the collaborator as `verify_farm_owner(farm_id, caller_id) → Farm?`, a lookup
that succeeds exactly when the farm exists and is owned by the caller. -/
structure Farm where
  id : Nat
  owner_id : Nat
  deriving DecidableEq, Repr

/-- `IoTDevice` row (`iot.py`): identity, farm reference, hardware id string,
online flag, optional last-seen timestamp, MQTT topic, creation time. -/
structure IoTDevice where
  id : Nat
  farm_id : Nat
  device_id : String
  is_online : Bool
  last_seen : Option Int
  mqtt_topic : String
  created_at : Int
  deriving DecidableEq, Repr

/-- `SensorReading` row (`iot.py`): nullable device reference, timestamp and
seven independently nullable sensor metrics. -/
structure SensorReading where
  id : Nat
  device_id : Option Nat
  timestamp : Int
  feed_rate : Option ℚ
  water_intake : Option ℚ
  temperature : Option ℚ
  humidity : Option ℚ
  avg_weight : Option ℚ
  ammonia_level : Option ℚ
  lux_level : Option ℚ
  deriving DecidableEq, Repr

/-- The relational store: farms (external), devices, readings. -/
structure DB where
  farms : List Farm
  devices : List IoTDevice
  readings : List SensorReading
  deriving DecidableEq, Repr

/-- `IoTDeviceCreate` request schema: farm, hardware id, optional topic. -/
structure IoTDeviceCreate where
  farm_id : Nat
  device_id : String
  mqtt_topic : Option String
  deriving DecidableEq, Repr

/-- `IoTDeviceUpdate` request schema: both fields optional; `none` models a
field that was not supplied (excluded by `model_dump(exclude_unset=True)`). -/
structure IoTDeviceUpdate where
  is_online : Option Bool
  mqtt_topic : Option String
  deriving DecidableEq, Repr

/-- `SensorReadingCreate` request schema (`create_sensor_reading` input). -/
structure SensorReadingCreate where
  device_id : Nat
  feed_rate : Option ℚ
  water_intake : Option ℚ
  temperature : Option ℚ
  humidity : Option ℚ
  avg_weight : Option ℚ
  ammonia_level : Option ℚ
  lux_level : Option ℚ
  deriving DecidableEq, Repr

/-! ## Device CRUD (`iot_crud.py`) -/

/-- `get_device_by_id`: select the device whose primary key matches. -/
def get_device_by_id (db : DB) (device_id : Nat) : Option IoTDevice :=
  db.devices.find? (fun d => d.id == device_id)

/-- `get_device_by_device_id`: select by the hardware id string. -/
def get_device_by_device_id (db : DB) (device_id_str : String) : Option IoTDevice :=
  db.devices.find? (fun d => d.device_id == device_id_str)

/-- Descending order on device creation time, as in
`order_by(IoTDevice.created_at.desc())`. -/
def createdDesc (a b : IoTDevice) : Prop := b.created_at ≤ a.created_at

instance : DecidableRel createdDesc :=
  fun a b => inferInstanceAs (Decidable (b.created_at ≤ a.created_at))

instance : IsTotal IoTDevice createdDesc :=
  ⟨fun a b => (le_total b.created_at a.created_at).symm.symm⟩

instance : IsTrans IoTDevice createdDesc :=
  ⟨fun _ _ _ h1 h2 => le_trans h2 h1⟩

/-- `get_all_devices`: optional online-only filter, count of the filtered
set, then order by `created_at` descending, offset `skip`, limit `limit`. -/
def get_all_devices (db : DB) (online_only : Bool) (skip limit : Nat) :
    List IoTDevice × Nat :=
  let filtered := if online_only then db.devices.filter (fun d => d.is_online)
    else db.devices
  let total := filtered.length
  (((filtered.insertionSort createdDesc).drop skip).take limit, total)

/-- `create_device`: topic defaults to `farm/{farm_id}/sensors`, device starts
online with `last_seen = now`; the fresh primary key is passed explicitly. -/
def create_device (db : DB) (device_in : IoTDeviceCreate) (new_id : Nat)
    (now : Int) : DB × IoTDevice :=
  let topic := device_in.mqtt_topic.getD
    ("farm/" ++ toString device_in.farm_id ++ "/sensors")
  let d : IoTDevice :=
    { id := new_id, farm_id := device_in.farm_id, device_id := device_in.device_id
      is_online := true, last_seen := some now, mqtt_topic := topic
      created_at := now }
  ({ db with devices := db.devices ++ [d] }, d)

/-- The `setattr` loop of `update_device`: apply exactly the supplied fields. -/
def apply_device_update (d : IoTDevice) (u : IoTDeviceUpdate) : IoTDevice :=
  let d1 := match u.is_online with
    | some b => { d with is_online := b }
    | none => d
  match u.mqtt_topic with
  | some t => { d1 with mqtt_topic := t }
  | none => d1

/-- `update_device`: fetch by id (`none` if absent), apply only the supplied
fields to that row, return the updated device. -/
def update_device (db : DB) (device_id : Nat) (device_in : IoTDeviceUpdate) :
    DB × Option IoTDevice :=
  match get_device_by_id db device_id with
  | none => (db, none)
  | some d =>
    let devices := db.devices.map (fun x =>
      if x.id == device_id then apply_device_update x device_in else x)
    ({ db with devices := devices }, some (apply_device_update d device_in))

/-- `update_device_status`: bulk `UPDATE ... WHERE id = device_id` setting
`is_online` and `last_seen = now`. -/
def update_device_status (db : DB) (device_id : Nat) (is_online : Bool)
    (now : Int) : DB :=
  { db with devices := db.devices.map (fun d =>
      if d.id == device_id then { d with is_online := is_online, last_seen := some now }
      else d) }

/-- `delete_device`: `false` if absent; otherwise remove the device, and the
ORM cascade (`cascade="all, delete-orphan"` on `IoTDevice.readings`) removes
every reading whose `device_id` references it. -/
def delete_device (db : DB) (device_id : Nat) : DB × Bool :=
  match get_device_by_id db device_id with
  | none => (db, false)
  | some _ =>
    ({ db with
        devices := db.devices.filter (fun d => !(d.id == device_id))
        readings := db.readings.filter (fun r => !(r.device_id == some device_id)) },
      true)

/-! ## Reading CRUD (`iot_crud.py`) -/

/-- Descending order on reading timestamps, as in
`order_by(desc(SensorReading.timestamp))`. -/
def tsDesc (a b : SensorReading) : Prop := b.timestamp ≤ a.timestamp

instance : DecidableRel tsDesc :=
  fun a b => inferInstanceAs (Decidable (b.timestamp ≤ a.timestamp))

instance : IsTotal SensorReading tsDesc :=
  ⟨fun a b => le_total b.timestamp a.timestamp⟩

instance : IsTrans SensorReading tsDesc :=
  ⟨fun _ _ _ h1 h2 => le_trans h2 h1⟩

/-- `create_sensor_reading`: append the reading stamped at ingestion time,
then refresh the device's liveness via `update_device_status(..., True)`. -/
def create_sensor_reading (db : DB) (reading_in : SensorReadingCreate)
    (new_id : Nat) (now : Int) : DB × SensorReading :=
  let r : SensorReading :=
    { id := new_id, device_id := some reading_in.device_id, timestamp := now
      feed_rate := reading_in.feed_rate, water_intake := reading_in.water_intake
      temperature := reading_in.temperature, humidity := reading_in.humidity
      avg_weight := reading_in.avg_weight, ammonia_level := reading_in.ammonia_level
      lux_level := reading_in.lux_level }
  let db1 : DB := { db with readings := db.readings ++ [r] }
  (update_device_status db1 reading_in.device_id true now, r)

/-- `get_latest_reading`: most recent reading of the device, or `none`. -/
def get_latest_reading (db : DB) (device_id : Nat) : Option SensorReading :=
  (((db.readings.filter (fun r => r.device_id == some device_id)).insertionSort
    tsDesc).take 1).head?

/-- `get_readings_by_device`: the device's readings, optionally restricted to
`timestamp ≥ now - hours_back`, descending by timestamp, capped at `limit`. -/
def get_readings_by_device (db : DB) (device_id : Nat) (now : Int)
    (hours_back : Option Nat) (limit : Nat) : List SensorReading :=
  let base := db.readings.filter (fun r => r.device_id == some device_id)
  let windowed := match hours_back with
    | none => base
    | some h => base.filter (fun r => decide (now - 60 * (h : Int) ≤ r.timestamp))
  (windowed.insertionSort tsDesc).take limit

/-! ## Aggregation (`get_reading_stats`) -/

/-- SQL `AVG` over the non-`NULL` values: `NULL` on an empty set. -/
def sqlAvg (xs : List ℚ) : Option ℚ :=
  match xs with
  | [] => none
  | _ => some (xs.sum / xs.length)

/-- SQL `MIN` over the non-`NULL` values: `NULL` on an empty set. -/
def sqlMin (xs : List ℚ) : Option ℚ := xs.min?

/-- SQL `MAX` over the non-`NULL` values: `NULL` on an empty set. -/
def sqlMax (xs : List ℚ) : Option ℚ := xs.max?

/-- Python `float(x) if x else None` on an optional aggregate: truthiness
maps both `None` and `0` to `None`. -/
def pyFloatOrNone (a : Option ℚ) : Option ℚ :=
  match a with
  | none => none
  | some v => if v = 0 then none else some v

/-- The rows matched by `get_reading_stats`'s `WHERE` clause: the device's
readings with `timestamp ≥ now - hours_back`. -/
def windowReadings (db : DB) (device_id : Nat) (now : Int) (hours_back : Nat) :
    List SensorReading :=
  db.readings.filter (fun r =>
    r.device_id == some device_id && decide (now - 60 * (hours_back : Int) ≤ r.timestamp))

/-- The dictionary returned by `get_reading_stats`. -/
structure ReadingStats where
  readings_count : Nat
  avg_temperature : Option ℚ
  min_temperature : Option ℚ
  max_temperature : Option ℚ
  avg_humidity : Option ℚ
  avg_feed_rate : Option ℚ
  avg_water_intake : Option ℚ
  avg_weight : Option ℚ
  avg_ammonia_level : Option ℚ
  avg_lux_level : Option ℚ
  hours_back : Nat
  deriving DecidableEq, Repr

/-- `get_reading_stats`: `COUNT` of all rows in the window, plus per-metric
aggregates, each passed through the `float(x) if x else None` truthiness
conversion before being placed in the response dictionary. -/
def get_reading_stats (db : DB) (device_id : Nat) (now : Int)
    (hours_back : Nat) : ReadingStats :=
  let w := windowReadings db device_id now hours_back
  { readings_count := w.length
    avg_temperature := pyFloatOrNone (sqlAvg (w.filterMap SensorReading.temperature))
    min_temperature := pyFloatOrNone (sqlMin (w.filterMap SensorReading.temperature))
    max_temperature := pyFloatOrNone (sqlMax (w.filterMap SensorReading.temperature))
    avg_humidity := pyFloatOrNone (sqlAvg (w.filterMap SensorReading.humidity))
    avg_feed_rate := pyFloatOrNone (sqlAvg (w.filterMap SensorReading.feed_rate))
    avg_water_intake := pyFloatOrNone (sqlAvg (w.filterMap SensorReading.water_intake))
    avg_weight := pyFloatOrNone (sqlAvg (w.filterMap SensorReading.avg_weight))
    avg_ammonia_level := pyFloatOrNone (sqlAvg (w.filterMap SensorReading.ammonia_level))
    avg_lux_level := pyFloatOrNone (sqlAvg (w.filterMap SensorReading.lux_level))
    hours_back := hours_back }

/-! ## Liveness sweep (`mark_offline_devices`) -/

/-- The sweep's `WHERE` clause: currently online and `last_seen < cutoff`.
A `NULL` `last_seen` never satisfies the SQL `<` comparison. -/
def isStale (now : Int) (timeout_minutes : Nat) (d : IoTDevice) : Bool :=
  d.is_online && (match d.last_seen with
    | some t => decide (t < now - (timeout_minutes : Int))
    | none => false)

/-- The per-row effect of the sweep's bulk update: a stale row has its
`is_online` column set to `False`, any other row is untouched. -/
def sweepOne (now : Int) (timeout_minutes : Nat) (d : IoTDevice) : IoTDevice :=
  if isStale now timeout_minutes d then { d with is_online := false } else d

/-- `mark_offline_devices`: bulk update setting `is_online = False` on every
stale row; returns the updated store and the affected row count. -/
def mark_offline_devices (db : DB) (now : Int) (timeout_minutes : Nat) :
    DB × Nat :=
  ({ db with devices := db.devices.map (sweepOne now timeout_minutes) },
    (db.devices.filter (isStale now timeout_minutes)).length)

/-- The sweep's selection condition, stated as the spec words it: the device
is currently online and its `last_seen` is older than `now - timeout`. -/
def staleSpec (now : Int) (timeout_minutes : Nat) (d : IoTDevice) : Prop :=
  d.is_online = true ∧ ∃ t, d.last_seen = some t ∧ t < now - (timeout_minutes : Int)

instance (now : Int) (m : Nat) (d : IoTDevice) : Decidable (staleSpec now m d) :=
  decidable_of_iff (isStale now m d = true) (by
    unfold isStale staleSpec
    rcases hls : d.last_seen with _ | t <;> simp [hls])

/-! ## Access-scoped API layer (`iot_api.py`) -/

/-- The error outcomes raised by the handlers. `conflict` is the
`400 BAD_REQUEST` raised for a duplicate `device_id` at registration (the
spec's `Conflict`); `notFound` is 404; `forbidden` is 403. -/
inductive ApiError where
  | notFound
  | forbidden
  | conflict
  deriving DecidableEq, Repr

/-- A handler outcome: a value, or an `HTTPException` error. -/
inductive ApiResult (α : Type) where
  | ok : α → ApiResult α
  | err : ApiError → ApiResult α
  deriving DecidableEq, Repr

/-- `farm_crud.get_farm_by_id(db, farm_id, owner_id)`.
Modelled from the spec: the farm CRUD module is outside `src/`; the spec
describes it as `verify_farm_owner(farm_id, caller_id) → Farm?`, returning
the farm exactly when it exists and the caller owns it, else nothing. -/
def verify_farm_owner (farms : List Farm) (farm_id owner_id : Nat) : Option Farm :=
  farms.find? (fun f => f.id == farm_id && f.owner_id == owner_id)

/-- `POST /devices` (`register_device`): verify farm ownership (404 if the
farm is absent or not owned), then reject a duplicate `device_id` (400),
then create.  On error the store is returned unchanged. -/
def register_device (db : DB) (device_in : IoTDeviceCreate) (user_id : Nat)
    (new_id : Nat) (now : Int) : DB × ApiResult IoTDevice :=
  match verify_farm_owner db.farms device_in.farm_id user_id with
  | none => (db, .err .notFound)
  | some _ =>
    match get_device_by_device_id db device_in.device_id with
    | some _ => (db, .err .conflict)
    | none =>
      let (db1, d) := create_device db device_in new_id now
      (db1, .ok d)

/-- `GET /devices/{id}` (`get_device`): 404 if absent, then 403 if the caller
does not own the device's farm, then device plus latest reading. -/
def api_get_device (db : DB) (device_id : Nat) (user_id : Nat) :
    DB × ApiResult (IoTDevice × Option SensorReading) :=
  match get_device_by_id db device_id with
  | none => (db, .err .notFound)
  | some d =>
    match verify_farm_owner db.farms d.farm_id user_id with
    | none => (db, .err .forbidden)
    | some _ => (db, .ok (d, get_latest_reading db device_id))

/-- `PUT /devices/{id}` (`update_device` handler): 404 if absent, 403 if the
caller does not own the device's farm, otherwise the partial update runs and
commits. -/
def api_update_device (db : DB) (device_id : Nat) (device_in : IoTDeviceUpdate)
    (user_id : Nat) : DB × ApiResult (Option IoTDevice) :=
  match get_device_by_id db device_id with
  | none => (db, .err .notFound)
  | some d =>
    match verify_farm_owner db.farms d.farm_id user_id with
    | none => (db, .err .forbidden)
    | some _ =>
      let (db1, r) := update_device db device_id device_in
      (db1, .ok r)

/-- `DELETE /devices/{id}` (`delete_device` handler): 404 if absent, 403 if
the caller does not own the device's farm, otherwise the delete runs and
commits (a 204 with no body, modelled as `ok ()`). -/
def api_delete_device (db : DB) (device_id : Nat) (user_id : Nat) :
    DB × ApiResult Unit :=
  match get_device_by_id db device_id with
  | none => (db, .err .notFound)
  | some d =>
    match verify_farm_owner db.farms d.farm_id user_id with
    | none => (db, .err .forbidden)
    | some _ => ((delete_device db device_id).1, .ok ())

/-- The `GET /devices` response body. Each page entry carries the device,
its latest reading, and the hardcoded `readings_count = 0` placeholder. -/
structure DeviceListResponse where
  total : Nat
  devices : List (IoTDevice × Option SensorReading × Nat)
  skip : Nat
  limit : Nat
  online_count : Nat
  offline_count : Nat
  deriving DecidableEq, Repr

/-- `GET /devices` (`list_devices`): page the devices, annotate each with its
latest reading, and count online/offline over the page only
(`sum(1 for d in devices if d.is_online)` and `len(devices) - online_count`). -/
def list_devices (db : DB) (skip limit : Nat) (online_only : Bool) :
    DeviceListResponse :=
  let devices := (get_all_devices db online_only skip limit).1
  let total := (get_all_devices db online_only skip limit).2
  let online_count := (devices.filter (fun d => d.is_online)).length
  { total := total
    devices := devices.map (fun d => (d, get_latest_reading db d.id, 0))
    skip := skip
    limit := limit
    online_count := online_count
    offline_count := devices.length - online_count }

/-- Amended-spec description of a reported average: absent when there are no
samples or the average equals zero, else the average of the samples. -/
def avgIfNonzero (xs : List ℚ) : Option ℚ :=
  if xs = [] ∨ xs.sum / (xs.length : ℚ) = 0 then none
  else some (xs.sum / (xs.length : ℚ))

/-- Amended-spec description of a reported minimum: absent when there are no
samples or the minimum equals zero, else the minimum of the samples. -/
def minIfNonzero (xs : List ℚ) : Option ℚ :=
  if xs = [] ∨ sqlMin xs = some 0 then none else sqlMin xs

/-- Amended-spec description of a reported maximum: absent when there are no
samples or the maximum equals zero, else the maximum of the samples. -/
def maxIfNonzero (xs : List ℚ) : Option ℚ :=
  if xs = [] ∨ sqlMax xs = some 0 then none else sqlMax xs

/-! ## Concrete fixtures -/

/-- A reading of device 1 carrying only a temperature value. -/
def tempReading (i : Nat) (ts : Int) (t : Option ℚ) : SensorReading :=
  { id := i, device_id := some 1, timestamp := ts, feed_rate := none
    water_intake := none, temperature := t, humidity := none
    avg_weight := none, ammonia_level := none, lux_level := none }

/-- A store holding one reading whose temperature is the value `0`. -/
def zeroTempDB : DB :=
  { farms := [], devices := [], readings := [tempReading 1 0 (some 0)] }

/-- The spec's stats scenario: three readings with temperatures 20, 30, null. -/
def threeTempDB : DB :=
  { farms := [], devices := []
    readings := [tempReading 1 0 (some 20), tempReading 2 0 (some 30),
      tempReading 3 0 none] }

/-- A device that is currently offline and was last seen at time 0. -/
def offlineDev : IoTDevice :=
  { id := 1, farm_id := 1, device_id := "IOT-0001", is_online := false
    last_seen := some 0, mqtt_topic := "farm/1/sensors", created_at := 0 }

/-- A store holding only `offlineDev`. -/
def ingestDB : DB := { farms := [], devices := [offlineDev], readings := [] }

/-- An ingestion request for device 1 reporting a temperature. -/
def ingestReq : SensorReadingCreate :=
  { device_id := 1, feed_rate := none, water_intake := none
    temperature := some 20, humidity := none, avg_weight := none
    ammonia_level := none, lux_level := none }

/-- `offlineDev` after a successful ingestion at time 100. -/
def refreshedDev : IoTDevice :=
  { offlineDev with is_online := true, last_seen := some 100 }

/-- An online device last seen at time 50 (stale for `now = 100`,
`timeout = 30`). -/
def staleDev : IoTDevice :=
  { id := 1, farm_id := 1, device_id := "IOT-0001", is_online := true
    last_seen := some 50, mqtt_topic := "farm/1/sensors", created_at := 0 }

/-- An online device last seen at time 90 (fresh for `now = 100`,
`timeout = 30`). -/
def freshDev : IoTDevice :=
  { id := 2, farm_id := 1, device_id := "IOT-0002", is_online := true
    last_seen := some 90, mqtt_topic := "farm/1/sensors-2", created_at := 0 }

/-- A store holding one stale and one fresh device. -/
def sweepDB : DB := { farms := [], devices := [staleDev, freshDev], readings := [] }

/-- Farm 1, owned by user 1. -/
def regFarm : Farm := { id := 1, owner_id := 1 }

/-- A device registered on farm 1 with hardware id "IOT-0001". -/
def regDev : IoTDevice :=
  { id := 1, farm_id := 1, device_id := "IOT-0001", is_online := true
    last_seen := some 0, mqtt_topic := "farm/1/sensors", created_at := 0 }

/-- A store holding farm 1 (owner: user 1) and `regDev`. -/
def regDB : DB := { farms := [regFarm], devices := [regDev], readings := [] }

/-- A registration request for the already-taken hardware id, targeting
farm 2 (which does not exist, hence is not owned by the caller). -/
def dupOtherFarmReq : IoTDeviceCreate :=
  { farm_id := 2, device_id := "IOT-0001", mqtt_topic := none }

/-- A registration request for the already-taken hardware id, targeting the
caller's own farm 1. -/
def dupOwnedFarmReq : IoTDeviceCreate :=
  { farm_id := 1, device_id := "IOT-0001", mqtt_topic := none }

/-- A reading of device 1 recorded 2 hours (120 minutes) before `now = 200`. -/
def oldReading : SensorReading := tempReading 1 80 (some 20)

/-- A reading of device 1 recorded 30 minutes before `now = 200`. -/
def recentReading : SensorReading := tempReading 2 170 (some 25)

/-- A store holding the two readings above. -/
def windowDB : DB :=
  { farms := [], devices := [], readings := [oldReading, recentReading] }

/-- An online device created at time 0. -/
def pagDevA : IoTDevice :=
  { id := 1, farm_id := 1, device_id := "IOT-A", is_online := true
    last_seen := some 0, mqtt_topic := "farm/1/a", created_at := 0 }

/-- An offline device created at time 1. -/
def pagDevB : IoTDevice :=
  { id := 2, farm_id := 1, device_id := "IOT-B", is_online := false
    last_seen := some 0, mqtt_topic := "farm/1/b", created_at := 1 }

/-- A store with two devices, used to exercise pagination. -/
def paginDB : DB := { farms := [], devices := [pagDevA, pagDevB], readings := [] }

end HackNest

namespace HackNest

/-! ## Helper lemmas -/

/-- The sweep's executable row condition agrees with the spec-level one. -/
theorem isStale_iff (now : Int) (m : Nat) (d : IoTDevice) :
    isStale now m d = true ↔ staleSpec now m d := by
  unfold isStale staleSpec
  rcases hls : d.last_seen with _ | t <;> simp [hls]

/-- A row output by the sweep is never stale. -/
theorem isStale_sweepOne (now : Int) (m : Nat) (d : IoTDevice) :
    isStale now m (sweepOne now m d) = false := by
  unfold sweepOne
  cases h : isStale now m d
  · simp [h]
  · simp only [if_pos h]
    unfold isStale at h ⊢
    simp_all

/-- The sweep's per-row update is idempotent. -/
theorem sweepOne_sweepOne (now : Int) (m : Nat) (d : IoTDevice) :
    sweepOne now m (sweepOne now m d) = sweepOne now m d := by
  rw [sweepOne, if_neg]
  simp [isStale_sweepOne]

theorem pyFloatOrNone_sqlAvg (xs : List ℚ) :
    pyFloatOrNone (sqlAvg xs) =
      if xs = [] ∨ xs.sum / (xs.length : ℚ) = 0 then none
      else some (xs.sum / (xs.length : ℚ)) := by
  cases xs with
  | nil => simp [sqlAvg, pyFloatOrNone]
  | cons a l =>
    by_cases h : (a :: l).sum / (((a :: l).length : Nat) : ℚ) = 0 <;>
      simp [sqlAvg, pyFloatOrNone, h]

theorem pyFloatOrNone_sqlMin (xs : List ℚ) :
    pyFloatOrNone (sqlMin xs) =
      if xs = [] ∨ sqlMin xs = some 0 then none else sqlMin xs := by
  rcases hx : sqlMin xs with _ | q
  · have hnil : xs = [] := List.min?_eq_none_iff.mp hx
    simp [hnil, pyFloatOrNone, ← hx]
  · have hne : xs ≠ [] := by
      rintro rfl
      simp [sqlMin, List.min?] at hx
    by_cases hq : q = 0 <;> simp [pyFloatOrNone, hx, hne, hq]

theorem pyFloatOrNone_sqlMax (xs : List ℚ) :
    pyFloatOrNone (sqlMax xs) =
      if xs = [] ∨ sqlMax xs = some 0 then none else sqlMax xs := by
  rcases hx : sqlMax xs with _ | q
  · have hnil : xs = [] := List.max?_eq_none_iff.mp hx
    simp [hnil, pyFloatOrNone, ← hx]
  · have hne : xs ≠ [] := by
      rintro rfl
      simp [sqlMax, List.max?] at hx
    by_cases hq : q = 0 <;> simp [pyFloatOrNone, hx, hne, hq]

/-- Facts about "sort descending, then cap at `limit`": the result respects
the cap, is sorted, draws from the input, and is the whole input (up to
order) when the input fits under the cap. -/
theorem sortTake_facts (w : List SensorReading) (limit : Nat) :
    ((w.insertionSort tsDesc).take limit).length ≤ limit ∧
    List.Pairwise (fun a b => b.timestamp ≤ a.timestamp)
      ((w.insertionSort tsDesc).take limit) ∧
    (∀ r ∈ (w.insertionSort tsDesc).take limit, r ∈ w) ∧
    (w.length ≤ limit → ((w.insertionSort tsDesc).take limit).Perm w) := by
  refine ⟨?_, ?_, ?_, ?_⟩
  · simp [List.length_take]
  · have hs : List.Pairwise tsDesc (w.insertionSort tsDesc) :=
      List.sorted_insertionSort tsDesc w
    exact hs.sublist (List.take_sublist _ _)
  · intro r hr
    exact (List.perm_insertionSort tsDesc w).subset
      ((List.take_sublist _ _).subset hr)
  · intro hl
    have hlen : (w.insertionSort tsDesc).length = w.length :=
      (List.perm_insertionSort tsDesc w).length_eq
    rw [List.take_of_length_le (by rw [hlen]; exact hl)]
    exact List.perm_insertionSort tsDesc w

/-- Composing the device filter with the window filter matches the combined
`WHERE` clause. -/
theorem window_filter_eq (db : DB) (device_id : Nat) (now : Int) (h : Nat) :
    (db.readings.filter (fun r => r.device_id == some device_id)).filter
        (fun r => decide (now - 60 * (h : Int) ≤ r.timestamp)) =
      db.readings.filter (fun r =>
        r.device_id == some device_id && decide (now - 60 * (h : Int) ≤ r.timestamp)) := by
  rw [List.filter_filter]
  exact List.filter_congr (fun a _ => Bool.and_comm _ _)

/-! ## Claims -/

/-- C1 (counterexample): the window of `zeroTempDB` holds exactly one
non-null temperature sample (the value `0`) and one reading, yet
`get_reading_stats` reports `avg_temperature`, `min_temperature` and
`max_temperature` as absent — the Python truthiness conversion
`float(x) if x else None` drops a zero aggregate, so "absent iff zero
non-null samples" fails. -/
theorem C1_counterexample :
    ((windowReadings zeroTempDB 1 0 24).filterMap SensorReading.temperature).length = 1 ∧
    (get_reading_stats zeroTempDB 1 0 24).readings_count = 1 ∧
    (get_reading_stats zeroTempDB 1 0 24).avg_temperature = none ∧
    (get_reading_stats zeroTempDB 1 0 24).min_temperature = none ∧
    (get_reading_stats zeroTempDB 1 0 24).max_temperature = none := by
  refine ⟨by decide, by decide, ?_, ?_, ?_⟩ <;>
    norm_num [get_reading_stats, windowReadings, zeroTempDB, tempReading,
      pyFloatOrNone, sqlAvg, sqlMin, sqlMax, List.filterMap_cons, List.sum_cons,
      List.min?, List.max?]

/-- C1 (amended): for every store, device and window, `readings_count` is the
total number of readings in the window regardless of which fields are
populated, and each metric is reported as absent iff the window contains zero
non-null samples for that metric **or the corresponding SQL aggregate equals
zero** (a consequence of the `float(x) if x else None` truthiness
conversion); otherwise the reported value is the average of the non-null
samples (and their minimum / maximum for temperature). -/
theorem C1_stats_characterization (db : DB) (device_id : Nat) (now : Int)
    (hours_back : Nat) :
    get_reading_stats db device_id now hours_back =
      { readings_count := (windowReadings db device_id now hours_back).length
        avg_temperature :=
          avgIfNonzero ((windowReadings db device_id now hours_back).filterMap
            SensorReading.temperature)
        min_temperature :=
          minIfNonzero ((windowReadings db device_id now hours_back).filterMap
            SensorReading.temperature)
        max_temperature :=
          maxIfNonzero ((windowReadings db device_id now hours_back).filterMap
            SensorReading.temperature)
        avg_humidity :=
          avgIfNonzero ((windowReadings db device_id now hours_back).filterMap
            SensorReading.humidity)
        avg_feed_rate :=
          avgIfNonzero ((windowReadings db device_id now hours_back).filterMap
            SensorReading.feed_rate)
        avg_water_intake :=
          avgIfNonzero ((windowReadings db device_id now hours_back).filterMap
            SensorReading.water_intake)
        avg_weight :=
          avgIfNonzero ((windowReadings db device_id now hours_back).filterMap
            SensorReading.avg_weight)
        avg_ammonia_level :=
          avgIfNonzero ((windowReadings db device_id now hours_back).filterMap
            SensorReading.ammonia_level)
        avg_lux_level :=
          avgIfNonzero ((windowReadings db device_id now hours_back).filterMap
            SensorReading.lux_level)
        hours_back := hours_back } := by
  simp only [get_reading_stats, avgIfNonzero, minIfNonzero, maxIfNonzero,
    pyFloatOrNone_sqlAvg, pyFloatOrNone_sqlMin, pyFloatOrNone_sqlMax]

/-- C2: every successful reading ingestion sets the device's `is_online` to
true and refreshes its `last_seen` to the ingestion time — for every device
row matching the reading's device id, whatever its previous status — and the
stored reading itself is stamped with the ingestion time. -/
theorem C2_ingestion_refreshes_liveness (db : DB)
    (reading_in : SensorReadingCreate) (new_id : Nat) (now : Int)
    (d' : IoTDevice)
    (h : d' ∈ (create_sensor_reading db reading_in new_id now).1.devices)
    (hid : d'.id = reading_in.device_id) :
    d'.is_online = true ∧ d'.last_seen = some now ∧
    (create_sensor_reading db reading_in new_id now).2.timestamp = now := by
  refine ⟨?_, ?_, rfl⟩ <;>
  · simp only [create_sensor_reading, update_device_status, List.mem_map] at h
    obtain ⟨x, _, hgx⟩ := h
    by_cases hxid : x.id = reading_in.device_id
    · subst hgx
      simp [hxid]
    · subst hgx
      simp only [beq_iff_eq, if_neg hxid] at hid ⊢
      exact absurd hid hxid

/-- C2 witness: ingesting a reading at time 100 for the previously offline
device 1 leaves it online with `last_seen = 100`. -/
theorem C2_witness :
    refreshedDev.is_online = true ∧ refreshedDev.last_seen = some 100 ∧
    (create_sensor_reading ingestDB ingestReq 7 100).2.timestamp = 100 :=
  C2_ingestion_refreshes_liveness ingestDB ingestReq 7 100 refreshedDev
    (by decide) (by decide)

/-- C3: the sweep marks offline exactly the devices that are currently online
and whose `last_seen` is older than `now - timeout_minutes`: every other
device row is left entirely untouched, `last_seen` is never modified, farms
and readings are untouched, and the returned count equals the number of
devices so transitioned. -/
theorem C3_sweep_exact (db : DB) (now : Int) (timeout_minutes : Nat) :
    (mark_offline_devices db now timeout_minutes).1.farms = db.farms ∧
    (mark_offline_devices db now timeout_minutes).1.readings = db.readings ∧
    List.Forall₂ (fun d d' =>
        d'.last_seen = d.last_seen ∧
        (staleSpec now timeout_minutes d → d' = { d with is_online := false }) ∧
        (¬ staleSpec now timeout_minutes d → d' = d))
      db.devices (mark_offline_devices db now timeout_minutes).1.devices ∧
    (mark_offline_devices db now timeout_minutes).2 =
      db.devices.countP (fun d => decide (staleSpec now timeout_minutes d)) := by
  refine ⟨rfl, rfl, ?_, ?_⟩
  · simp only [mark_offline_devices]
    rw [List.forall₂_map_right_iff, List.forall₂_same]
    intro x _
    unfold sweepOne
    by_cases hx : staleSpec now timeout_minutes x
    · rw [if_pos ((isStale_iff now timeout_minutes x).mpr hx)]
      exact ⟨rfl, fun _ => rfl, fun hc => absurd hx hc⟩
    · rw [if_neg (fun hb => hx ((isStale_iff now timeout_minutes x).mp hb))]
      exact ⟨rfl, fun hc => absurd hc hx, fun _ => rfl⟩
  · simp only [mark_offline_devices, ← List.countP_eq_length_filter]
    exact List.countP_congr (fun x _ => by
      simp [isStale_iff, decide_eq_true_iff])

/-- C3 witness: with `now = 100` and `timeout = 30`, the sweep over one stale
and one fresh device marks exactly one device. -/
theorem C3_witness : (mark_offline_devices sweepDB 100 30).2 = 1 := by
  rw [(C3_sweep_exact sweepDB 100 30).2.2.2]
  decide

/-- C4: the liveness sweep is idempotent — re-running it on the state it just
produced, with the same timeout and clock and no interleaving ingestion or
status change, marks zero devices and leaves the state unchanged. -/
theorem C4_sweep_idempotent (db : DB) (now : Int) (timeout_minutes : Nat) :
    mark_offline_devices (mark_offline_devices db now timeout_minutes).1 now
        timeout_minutes
      = ((mark_offline_devices db now timeout_minutes).1, 0) := by
  simp only [mark_offline_devices, List.map_map, Prod.mk.injEq]
  constructor
  · simp only [DB.mk.injEq, true_and, and_true]
    exact List.map_congr_left (fun x _ => sweepOne_sweepOne now timeout_minutes x)
  · rw [List.length_eq_zero, List.filter_eq_nil_iff]
    intro a ha
    obtain ⟨x, _, rfl⟩ := List.mem_map.mp ha
    simp [isStale_sweepOne]

/-- C5 (counterexample): a registration whose `device_id` duplicates the
registered device `regDev` but targets a farm the caller does not own fails
with `NotFound` (the farm-ownership check runs first), not with `Conflict`,
so "fails with Conflict regardless of which farm is targeted" is false as
stated. -/
theorem C5_counterexample :
    (∃ d ∈ regDB.devices, d.device_id = dupOtherFarmReq.device_id) ∧
    register_device regDB dupOtherFarmReq 1 99 100 = (regDB, .err .notFound) ∧
    ApiError.notFound ≠ ApiError.conflict := by
  refine ⟨⟨regDev, by decide, rfl⟩, by decide, by decide⟩

/-- C5 (amended): whenever the farm-ownership check passes — regardless of
which owned farm is targeted — a registration whose `device_id` equals the
`device_id` of any already-registered device fails with `Conflict` and
leaves the store unchanged, so no device is created; when the target farm is
absent or not owned, the request instead fails earlier with `NotFound`,
likewise creating nothing. -/
theorem C5_duplicate_conflict (db : DB) (device_in : IoTDeviceCreate)
    (user_id new_id : Nat) (now : Int) (f : Farm)
    (hf : verify_farm_owner db.farms device_in.farm_id user_id = some f)
    (hd : ∃ d ∈ db.devices, d.device_id = device_in.device_id) :
    register_device db device_in user_id new_id now = (db, .err .conflict) := by
  unfold register_device
  rw [hf]
  obtain ⟨d, hmem, hdid⟩ := hd
  have hsome : (get_device_by_device_id db device_in.device_id).isSome := by
    unfold get_device_by_device_id
    rw [List.find?_isSome]
    exact ⟨d, hmem, by simp [hdid]⟩
  obtain ⟨x, hx⟩ := Option.isSome_iff_exists.mp hsome
  rw [hx]

/-- C5 witness: the same duplicate hardware id, targeting the caller's own
farm, is rejected with `Conflict` and the store is unchanged. -/
theorem C5_witness :
    register_device regDB dupOwnedFarmReq 1 99 100 = (regDB, .err .conflict) :=
  C5_duplicate_conflict regDB dupOwnedFarmReq 1 99 100 regFarm (by decide)
    ⟨regDev, by decide, by decide⟩

/-- C6: a partial update changes only the fields explicitly supplied — an
unsupplied `is_online` or `mqtt_topic` is left untouched, the identity,
farm, hardware id, `last_seen` and `created_at` columns are never changed,
rows with a different id are untouched — and an update of a non-existent
device id returns `none` and changes nothing. -/
theorem C6_partial_update (db : DB) (device_id : Nat) (u : IoTDeviceUpdate) :
    (get_device_by_id db device_id = none →
      update_device db device_id u = (db, none)) ∧
    List.Forall₂ (fun d d' =>
        d'.id = d.id ∧ d'.farm_id = d.farm_id ∧ d'.device_id = d.device_id ∧
        d'.last_seen = d.last_seen ∧ d'.created_at = d.created_at ∧
        (u.is_online = none → d'.is_online = d.is_online) ∧
        (u.mqtt_topic = none → d'.mqtt_topic = d.mqtt_topic) ∧
        (d.id ≠ device_id → d' = d) ∧
        (∀ b, d.id = device_id → u.is_online = some b → d'.is_online = b) ∧
        (∀ t, d.id = device_id → u.mqtt_topic = some t → d'.mqtt_topic = t))
      db.devices (update_device db device_id u).1.devices := by
  cases hfind : get_device_by_id db device_id with
  | none =>
    have hnone : ∀ x ∈ db.devices, x.id ≠ device_id := by
      intro x hx hxid
      have := List.find?_eq_none.mp hfind x hx
      simp [hxid] at this
    constructor
    · intro _
      unfold update_device
      rw [hfind]
    · rw [show (update_device db device_id u).1.devices = db.devices by
        unfold update_device; rw [hfind]]
      rw [List.forall₂_same]
      intro x hx
      exact ⟨rfl, rfl, rfl, rfl, rfl, fun _ => rfl, fun _ => rfl, fun _ => rfl,
        fun b hxid _ => absurd hxid (hnone x hx),
        fun t hxid _ => absurd hxid (hnone x hx)⟩
  | some d0 =>
    constructor
    · intro h
      simp at h
    · rw [show (update_device db device_id u).1.devices =
          db.devices.map (fun x =>
            if x.id == device_id then apply_device_update x u else x) by
        unfold update_device; rw [hfind]]
      rw [List.forall₂_map_right_iff, List.forall₂_same]
      intro x _
      rcases u with ⟨uo, ut⟩
      rcases uo with _ | b <;> rcases ut with _ | t <;>
        by_cases hxid : x.id = device_id <;>
        simp_all [apply_device_update]

/-- C6 witness: updating device 1 with only `mqtt_topic = "x"` rewrites the
topic and leaves `is_online` (and every other field) unchanged. -/
theorem C6_witness :
    (update_device regDB 1 { is_online := none, mqtt_topic := some "x" }).1.devices =
      [{ regDev with mqtt_topic := "x" }] ∧
    ({ regDev with mqtt_topic := "x" } : IoTDevice).is_online = regDev.is_online := by
  have hl : (update_device regDB 1
      { is_online := none, mqtt_topic := some "x" }).1.devices =
      [{ regDev with mqtt_topic := "x" }] := by decide
  have h := (C6_partial_update regDB 1 { is_online := none, mqtt_topic := some "x" }).2
  rw [hl] at h
  rcases h with - | ⟨hr, -⟩
  exact ⟨hl, hr.2.2.2.2.2.1 rfl⟩

/-- C7: deleting a non-existent device returns `false` and changes nothing;
deleting an existing device returns `true`, removes every device row with
that id, cascades deletion to exactly that device's readings (readings of
other devices are untouched), leaves farms untouched, and a subsequent
`get_latest_reading` for that device returns `none`. -/
theorem C7_delete_cascade (db : DB) (device_id : Nat) :
    (get_device_by_id db device_id = none →
      delete_device db device_id = (db, false)) ∧
    (get_device_by_id db device_id ≠ none →
      (delete_device db device_id).2 = true ∧
      get_device_by_id (delete_device db device_id).1 device_id = none ∧
      get_latest_reading (delete_device db device_id).1 device_id = none ∧
      (∀ r, r ∈ (delete_device db device_id).1.readings ↔
        r ∈ db.readings ∧ r.device_id ≠ some device_id) ∧
      (∀ d, d ∈ (delete_device db device_id).1.devices ↔
        d ∈ db.devices ∧ d.id ≠ device_id) ∧
      (delete_device db device_id).1.farms = db.farms) := by
  cases hfind : get_device_by_id db device_id with
  | none =>
    refine ⟨fun _ => ?_, fun h => absurd rfl h⟩
    unfold delete_device
    rw [hfind]
  | some d0 =>
    refine ⟨fun h => by simp at h, fun _ => ?_⟩
    have hdel : delete_device db device_id =
        ({ db with
            devices := db.devices.filter (fun d => !(d.id == device_id))
            readings := db.readings.filter
              (fun r => !(r.device_id == some device_id)) }, true) := by
      unfold delete_device
      rw [hfind]
    rw [hdel]
    refine ⟨rfl, ?_, ?_, ?_, ?_, rfl⟩
    · unfold get_device_by_id
      rw [List.find?_eq_none]
      intro x hx
      simpa using (List.mem_filter.mp hx).2
    · unfold get_latest_reading
      have hnil : (db.readings.filter
          (fun r => !(r.device_id == some device_id))).filter
          (fun r => r.device_id == some device_id) = [] := by
        rw [List.filter_eq_nil_iff]
        intro r hr
        simpa using (List.mem_filter.mp hr).2
      simp only [hnil]
      rfl
    · intro r
      rw [List.mem_filter]
      simp
    · intro d
      rw [List.mem_filter]
      simp

/-- C7 witness: deleting the absent device 5 returns `false` and leaves the
store unchanged; deleting device 1 returns `true`, removes it, and its
latest-reading lookup then returns `none`. -/
theorem C7_witness :
    delete_device regDB 5 = (regDB, false) ∧
    (delete_device regDB 1).2 = true ∧
    get_latest_reading (delete_device regDB 1).1 1 = none := by
  refine ⟨(C7_delete_cascade regDB 5).1 (by decide), ?_, ?_⟩
  · exact ((C7_delete_cascade regDB 1).2 (by decide)).1
  · exact ((C7_delete_cascade regDB 1).2 (by decide)).2.2.1

/-- C8: for every device and limit, `get_readings_by_device` returns
readings ordered descending by timestamp and capped at `limit`, each drawn
from the store and belonging to the device; when a window is given every
returned reading has `timestamp ≥ now - 60·hours_back`, and — when the
matching set fits under the cap — the result is exactly (a permutation of)
the device's readings inside the window. -/
theorem C8_readings_window (db : DB) (device_id : Nat) (now : Int)
    (hours_back : Option Nat) (limit : Nat) :
    (get_readings_by_device db device_id now hours_back limit).length ≤ limit ∧
    List.Pairwise (fun a b => b.timestamp ≤ a.timestamp)
      (get_readings_by_device db device_id now hours_back limit) ∧
    (∀ r ∈ get_readings_by_device db device_id now hours_back limit,
      r ∈ db.readings ∧ r.device_id = some device_id) ∧
    (∀ h, hours_back = some h →
      ∀ r ∈ get_readings_by_device db device_id now hours_back limit,
        now - 60 * (h : Int) ≤ r.timestamp) ∧
    (∀ h, hours_back = some h →
      db.readings.countP (fun r =>
        r.device_id == some device_id &&
          decide (now - 60 * (h : Int) ≤ r.timestamp)) ≤ limit →
      (get_readings_by_device db device_id now hours_back limit).Perm
        (db.readings.filter (fun r =>
          r.device_id == some device_id &&
            decide (now - 60 * (h : Int) ≤ r.timestamp)))) := by
  cases hours_back with
  | none =>
    obtain ⟨h1, h2, h3, _⟩ := sortTake_facts
      (db.readings.filter (fun r => r.device_id == some device_id)) limit
    refine ⟨h1, h2, ?_, ?_, ?_⟩
    · intro r hr
      have := List.mem_filter.mp (h3 r hr)
      exact ⟨this.1, by simpa using this.2⟩
    · intro h hno
      exact absurd hno (by simp)
    · intro h hno
      exact absurd hno (by simp)
  | some h =>
    have hw := window_filter_eq db device_id now h
    obtain ⟨h1, h2, h3, h4⟩ := sortTake_facts
      ((db.readings.filter (fun r => r.device_id == some device_id)).filter
        (fun r => decide (now - 60 * (h : Int) ≤ r.timestamp))) limit
    refine ⟨h1, h2, ?_, ?_, ?_⟩
    · intro r hr
      have hm := List.mem_filter.mp (List.mem_filter.mp (h3 r hr)).1
      exact ⟨hm.1, by simpa using hm.2⟩
    · rintro h' ⟨rfl⟩
      intro r hr
      have hm := List.mem_filter.mp (h3 r hr)
      simpa using hm.2
    · rintro h' ⟨rfl⟩
      intro hcount
      have hlen : ((db.readings.filter
          (fun r => r.device_id == some device_id)).filter
          (fun r => decide (now - 60 * (h : Int) ≤ r.timestamp))).length ≤ limit := by
        rw [hw, ← List.countP_eq_length_filter]
        exact hcount
      rw [← hw]
      exact h4 hlen

/-- C8 witness: with `now = 200` and a 1-hour window, the reading recorded
2 hours ago is excluded and the one recorded 30 minutes ago is returned. -/
theorem C8_witness :
    (get_readings_by_device windowDB 1 200 (some 1) 100).Perm [recentReading] := by
  have h := (C8_readings_window windowDB 1 200 (some 1) 100).2.2.2.2 1 rfl
    (by decide)
  have hfil : windowDB.readings.filter (fun r =>
      r.device_id == some 1 && decide (200 - 60 * ((1 : ℕ) : Int) ≤ r.timestamp)) =
      [recentReading] := by decide
  rw [hfil] at h
  exact h

/-- C9: for the per-device read, update and delete handlers, a non-existent
device id fails with 404 and an existing device whose farm the caller does
not own fails with 403; in both failure cases the handler returns before any
mutation, leaving the whole store (devices, readings, farms) unchanged. -/
theorem C9_auth_failures (db : DB) (device_id : Nat) (u : IoTDeviceUpdate)
    (user_id : Nat) :
    (get_device_by_id db device_id = none →
      api_get_device db device_id user_id = (db, .err .notFound) ∧
      api_update_device db device_id u user_id = (db, .err .notFound) ∧
      api_delete_device db device_id user_id = (db, .err .notFound)) ∧
    (∀ d, get_device_by_id db device_id = some d →
      verify_farm_owner db.farms d.farm_id user_id = none →
      api_get_device db device_id user_id = (db, .err .forbidden) ∧
      api_update_device db device_id u user_id = (db, .err .forbidden) ∧
      api_delete_device db device_id user_id = (db, .err .forbidden)) := by
  constructor
  · intro h
    unfold api_get_device api_update_device api_delete_device
    rw [h]
    exact ⟨rfl, rfl, rfl⟩
  · intro d hd hf
    unfold api_get_device api_update_device api_delete_device
    rw [hd]
    simp [hf]

/-- C9 witness: deleting the absent device 5 yields 404; user 2, who does
not own farm 1, gets 403 deleting or updating device 1; the store is
returned unchanged in each case. -/
theorem C9_witness :
    api_delete_device regDB 5 1 = (regDB, .err .notFound) ∧
    api_delete_device regDB 1 2 = (regDB, .err .forbidden) ∧
    api_update_device regDB 1 { is_online := none, mqtt_topic := none } 2 =
      (regDB, .err .forbidden) := by
  refine ⟨((C9_auth_failures regDB 5
      { is_online := none, mqtt_topic := none } 1).1 (by decide)).2.2, ?_, ?_⟩
  · exact ((C9_auth_failures regDB 1 { is_online := none, mqtt_topic := none }
      2).2 regDev (by decide) (by decide)).2.2
  · exact ((C9_auth_failures regDB 1 { is_online := none, mqtt_topic := none }
      2).2 regDev (by decide) (by decide)).2.1

/-- C10: in the device-listing response, `online_count` and `offline_count`
are computed only over the returned page: `online_count` counts the online
devices of the page, their sum is the page size, and (concretely, with two
devices and `limit = 1`) the page size can be strictly smaller than `total`. -/
theorem C10_page_counts (db : DB) (skip limit : Nat) (online_only : Bool) :
    ((list_devices db skip limit online_only).online_count =
      ((get_all_devices db online_only skip limit).1.filter
        (fun d => d.is_online)).length) ∧
    ((list_devices db skip limit online_only).online_count +
        (list_devices db skip limit online_only).offline_count =
      (list_devices db skip limit online_only).devices.length) ∧
    ((list_devices db skip limit online_only).devices.length =
      (get_all_devices db online_only skip limit).1.length) ∧
    ((list_devices paginDB 0 1 false).devices.length <
      (list_devices paginDB 0 1 false).total) := by
  refine ⟨rfl, ?_, ?_, by decide⟩
  · have hle : ((get_all_devices db online_only skip limit).1.filter
        (fun d => d.is_online)).length ≤
        (get_all_devices db online_only skip limit).1.length :=
      List.length_filter_le _ _
    simp only [list_devices, List.length_map]
    omega
  · simp only [list_devices, List.length_map]

end HackNest
